import Mathlib

/-!
Shallow embedding of the advfs in-memory deduplicating filesystem (C sources:
advfs.h, init.c, ramblock.c, main.c) together with theorems settling the
claims about it.

The development has two layers, mirroring the two layers of the source:

* namespace `Ram` — the block-store engine of `ramblock.c` (hash-indexed BST
  over block-management records, free-list allocator, block map, the dedup
  write path `advfs_write_block`), with the image initialised as in `init.c`.
* namespace `Mfs` — the self-contained filesystem in `main.c` (its own
  `_read_block`/`_write_block`, block-map grow/shrink, path resolver,
  directory operations and the fuse adapters `advfs_read`, `advfs_write`,
  `advfs_truncate`, `advfs_statfs`, `advfs_readdir`, `advfs_create`,
  `advfs_mkdir`, `advfs_unlink`, `advfs_rmdir`).

Modelling conventions:
* Machine integers are `Nat`; 64-bit wrap-around is written explicitly with
  `% W64` at the operations where the source can overflow (refcount and
  used-counter decrements / increments).
* The image is not modelled as one flat byte array: the disjoint on-image
  areas (superblock fields, inode table, block-management table, data
  blocks) are separate components of the state record.  All code under
  consideration addresses each area only through its own accessors, so the
  separation is faithful.
* Memory obtained from `malloc` and never initialised by the source is
  modelled as zero-filled; every place relying on this carries a comment.
* SHA384 is an external library call; the engine is parametrised by an
  arbitrary hash function `H` on block contents, compared (as `memcmp`
  compares the 48-byte digests) through the linear order on `Nat`.
* Arena recursions over block numbers (the BST walks) and the C `while`
  loops take an explicit fuel argument; concrete executions use fuel far
  above the real trip count, and theorems with fuel hypotheses instantiate
  it likewise.
-/

namespace Advfs

/-- Modulus of 64-bit machine arithmetic. -/
def W64 : Nat := 2 ^ 64

/-- ADVFS_BLOCK_SIZE. -/
def BLOCK_SIZE : Nat := 4096

/-- ADVFS_BLOCK_NUM. -/
def BLOCK_NUM : Nat := 10240

/-- ADVFS_INODE_NUM. -/
def INODE_NUM : Nat := 128

/-- ADVFS_NAME_MAX. -/
def NAME_MAX : Nat := 255

/-- ADVFS_INODE_BLOCKPTR. -/
def INODE_BLOCKPTR : Nat := 16

/-- ADVFS_NUM_ENTRIES (scan bound of `_find_free_inode`). -/
def NUM_ENTRIES : Nat := 100

/-- ADVFS_MAX_CHILDREN. -/
def MAX_CHILDREN : Nat := 128

/-- Number of 64-bit words in a block. -/
def WORDS_PER_BLOCK : Nat := 512

/-- advfs_entry_type_t ADVFS_UNUSED. -/
def ADVFS_UNUSED : Nat := 0

/-- advfs_entry_type_t ADVFS_REGULAR_FILE. -/
def ADVFS_REGULAR_FILE : Nat := 1

/-- advfs_entry_type_t ADVFS_DIR. -/
def ADVFS_DIR : Nat := 2

/-- errno ENOENT (symbolic; numeric values are the Linux ones). -/
def ENOENT : Int := 2

/-- errno EACCES. -/
def EACCES : Int := 13

/-- errno EFAULT. -/
def EFAULT : Int := 14

/-- errno EEXIST. -/
def EEXIST : Int := 17

/-- errno ENOTDIR. -/
def ENOTDIR : Int := 20

/-- errno EISDIR. -/
def EISDIR : Int := 21

/-- errno EFBIG. -/
def EFBIG : Int := 27

/-- errno ENOTEMPTY. -/
def ENOTEMPTY : Int := 39

/-- errno EDQUOT. -/
def EDQUOT : Int := 122

/-- open(2) access mode O_RDONLY. -/
def O_RDONLY : Nat := 0

/-- open(2) access mode O_WRONLY. -/
def O_WRONLY : Nat := 1

/-- open(2) access mode O_RDWR. -/
def O_RDWR : Nat := 2

/-- Blocks occupied by the inode area: ADVFS_INODE_NUM / (BLOCK_SIZE / sizeof inode). -/
def NBLK_INODE : Nat := INODE_NUM / (BLOCK_SIZE / 512)

/-- Blocks occupied by the block-management area: BLOCK_NUM / (BLOCK_SIZE / sizeof mgt). -/
def NBLK_MGT : Nat := BLOCK_NUM / (BLOCK_SIZE / 128)

/-- First block of the data area (`sblk->ptr_block` as computed by the initialisers). -/
def PTR_BLOCK : Nat := 1 + NBLK_INODE + NBLK_MGT

/-- Number of data blocks (`sblk->n_blocks`). -/
def N_DATA_BLOCKS : Nat := BLOCK_NUM - PTR_BLOCK

/-- The free-list `next` pointer each data block holds after initialisation:
the init loops link block b to b+1 and terminate the last block with 0. -/
def dataNext (b : Nat) : Nat := if b + 1 < BLOCK_NUM then b + 1 else 0

/-- A block-management record (advfs_block_mgt_t): 48-byte hash (modelled as a
`Nat` ordered as `memcmp` orders the digests), refcount, BST links. -/
structure MgtRec where
  hash : Nat
  ref : Nat
  left : Nat
  right : Nat
deriving DecidableEq

namespace Ram

/-- A data block of the block-store layer, viewed as its 512 64-bit words
(the dedup engine copies blocks only wholesale, and interprets word 0 as the
free-list `next` pointer). -/
def Blk := Nat → Nat

/-- An inode as the block engine sees it: the engine reads and writes only
the `blocks` slot array (advfs_write_block reads the full inode but consults
no attribute). -/
structure Inode where
  blocks : Nat → Nat

/-- State of the block-store layer: superblock fields touched by ramblock.c,
the block-management table, the inode table and the data blocks. -/
structure RState where
  mgtRoot : Nat
  freelist : Nat
  nBlockUsed : Nat
  mgt : Nat → MgtRec
  inodes : Nat → Inode
  blocks : Nat → Blk

/-- Embedding of `_block_search_rec`: hash-comparison walk; `memcmp < 0`
(node hash below the key) walks right, `> 0` walks left. -/
def _block_search_rec (s : RState) : Nat → Nat → Nat → Nat
  | 0, _, _ => 0
  | fuel + 1, parent, h =>
    if parent = 0 then 0
    else
      let m := s.mgt parent
      if m.hash = h then parent
      else if m.hash < h then _block_search_rec s fuel m.right h
      else _block_search_rec s fuel m.left h

/-- Embedding of `_block_search`: walk from the superblock root. -/
def _block_search (s : RState) (fuel h : Nat) : Nat :=
  _block_search_rec s fuel s.mgtRoot h

/-- Embedding of `_block_add_rec`.  The C recursion threads a pointer to the
slot being considered and writes `*parent = b` at an empty slot; the
functional rendering returns the new value of the incoming slot and the
updated record table.  Equal hashes fail (`-1`, rendered `none`). -/
def _block_add_rec (mgt0 : Nat → MgtRec) : Nat → Nat → Nat → Option (Nat × (Nat → MgtRec))
  | 0, _, _ => none
  | fuel + 1, parent, b =>
    if parent = 0 then some (b, mgt0)
    else
      let m := mgt0 parent
      let t := mgt0 b
      if m.hash = t.hash then none
      else if m.hash < t.hash then
        match _block_add_rec mgt0 fuel m.right b with
        | none => none
        | some (nr, mgtf) =>
          some (parent, fun x => if x = parent then { mgtf parent with right := nr } else mgtf x)
      else
        match _block_add_rec mgt0 fuel m.left b with
        | none => none
        | some (nl, mgtf) =>
          some (parent, fun x => if x = parent then { mgtf parent with left := nl } else mgtf x)

/-- Embedding of `_block_add` (root slot in the superblock). -/
def _block_add (s : RState) (fuel b : Nat) : Option RState :=
  match _block_add_rec s.mgt fuel s.mgtRoot b with
  | none => none
  | some (nr, mgtf) => some { s with mgtRoot := nr, mgt := mgtf }

/-- Embedding of `_block_remove_max`: walk to the rightmost node under the
incoming slot; return it together with the new value of that slot.  As in
the source, the slot is overwritten only when the maximal node has a left
child (`if (0 != mgt->left) *parent = mgt->left;`) — otherwise it keeps its
old value. -/
def _block_remove_max (mgt0 : Nat → MgtRec) : Nat → Nat → Option (Nat × Nat × (Nat → MgtRec))
  | 0, _ => none
  | fuel + 1, p =>
    let m := mgt0 p
    if m.right ≠ 0 then
      match _block_remove_max mgt0 fuel m.right with
      | none => none
      | some (maxc, nr, mgtf) =>
        some (maxc, p, fun x => if x = p then { mgtf p with right := nr } else mgtf x)
    else
      some (p, if m.left ≠ 0 then m.left else p, mgt0)

/-- Embedding of `_block_delete_rec`.  Returns the new value of the incoming
slot and the updated record table, or `none` for the `-1` (not found /
conflict) results.  The source tests `0 != mgt->left` twice in a row — the
branch intended for a right-only child is unreachable and a node with only a
right child falls through to the no-children case; the rendering keeps that
shape. -/
def _block_delete_rec (mgt0 : Nat → MgtRec) : Nat → Nat → Nat → Option (Nat × (Nat → MgtRec))
  | 0, _, _ => none
  | fuel + 1, parent, b =>
    if parent = 0 then none
    else if parent = b then
      let m := mgt0 b
      if m.left ≠ 0 ∧ m.right ≠ 0 then
        match _block_remove_max mgt0 fuel m.left with
        | none => none
        | some (maxc, nl, mgt1) =>
          -- the write through the live pointer `&mgt->left` performed inside
          -- _block_remove_max lands in record b before mgt->left is re-read
          let mgt2 := fun x => if x = b then { mgt1 b with left := nl } else mgt1 x
          let mgt3 := fun x =>
            if x = maxc then { mgt2 maxc with left := (mgt2 b).left, right := (mgt2 b).right }
            else mgt2 x
          some (maxc, mgt3)
      else if m.left ≠ 0 then
        some (m.left, mgt0)
      else if m.left ≠ 0 then
        -- verbatim from the source: the left-child test is repeated, so this
        -- arm (meant for the right-only child) can never be taken
        some (m.right, mgt0)
      else
        some (0, mgt0)
    else
      let m := mgt0 parent
      let t := mgt0 b
      if m.hash < t.hash then
        match _block_delete_rec mgt0 fuel m.right b with
        | none => none
        | some (nr, mgtf) =>
          some (parent, fun x => if x = parent then { mgtf parent with right := nr } else mgtf x)
      else if t.hash < m.hash then
        match _block_delete_rec mgt0 fuel m.left b with
        | none => none
        | some (nl, mgtf) =>
          some (parent, fun x => if x = parent then { mgtf parent with left := nl } else mgtf x)
      else
        none

/-- Embedding of `_block_delete`; the caller ignores the `-1` result, so the
wrapper returns the unchanged state in that case. -/
def _block_delete (s : RState) (fuel b : Nat) : RState :=
  match _block_delete_rec s.mgt fuel s.mgtRoot b with
  | none => s
  | some (nr, mgtf) => { s with mgtRoot := nr, mgt := mgtf }

/-- The indirect-chain walk shared by `_resolve_block_map` and
`_update_block_map`: hop to the next chain block while the remaining index
is at least BLOCK_SIZE/8 − 1; returns the block holding the slot and the
slot index within it. -/
def chainWalk (blocks : Nat → Blk) (b pos : Nat) : Nat × Nat :=
  if h : WORDS_PER_BLOCK - 1 ≤ pos then
    chainWalk blocks (blocks b (WORDS_PER_BLOCK - 1)) (pos - (WORDS_PER_BLOCK - 1))
  else (b, pos)
termination_by pos
decreasing_by
  simp only [WORDS_PER_BLOCK] at h ⊢
  omega

/-- Embedding of `_resolve_block_map`. -/
def _resolve_block_map (s : RState) (inr pos : Nat) : Nat :=
  if pos < INODE_BLOCKPTR - 1 then (s.inodes inr).blocks pos
  else
    let cw := chainWalk s.blocks ((s.inodes inr).blocks (INODE_BLOCKPTR - 1))
      (pos - (INODE_BLOCKPTR - 1))
    s.blocks cw.1 cw.2

/-- Embedding of `_update_block_map`. -/
def _update_block_map (s : RState) (inr pos pb : Nat) : RState :=
  if pos < INODE_BLOCKPTR - 1 then
    { s with inodes := fun x =>
        if x = inr then
          { blocks := fun p => if p = pos then pb else (s.inodes inr).blocks p }
        else s.inodes x }
  else
    let cw := chainWalk s.blocks ((s.inodes inr).blocks (INODE_BLOCKPTR - 1))
      (pos - (INODE_BLOCKPTR - 1))
    { s with blocks := fun x =>
        if x = cw.1 then (fun w => if w = cw.2 then pb else s.blocks cw.1 w)
        else s.blocks x }

/-- Embedding of `advfs_alloc_block` (ramblock.c): pop the free-list head,
bump `n_block_used`; 0 when the list is empty. -/
def advfs_alloc_block (s : RState) : Nat × RState :=
  let b := s.freelist
  if b = 0 then (0, s)
  else
    (b, { s with freelist := s.blocks b 0, nBlockUsed := (s.nBlockUsed + 1) % W64 })

/-- Embedding of `advfs_free_block` (ramblock.c).  The source copies a whole
stack buffer of which only the first word (`next`) was initialised; the
remaining bytes are modelled as zero. -/
def advfs_free_block (s : RState) (b : Nat) : RState :=
  { s with
      blocks := fun x => if x = b then (fun w => if w = 0 then s.freelist else 0) else s.blocks x,
      freelist := b,
      nBlockUsed := (s.nBlockUsed + (W64 - 1)) % W64 }

/-- The unreference sequence that advfs_write_block inlines twice (and
advfs_unref_block repeats): decrement the refcount (64-bit wrap), and when
it reaches 0 delete the block from the BST and return it to the free list. -/
def unrefSeq (s : RState) (fuel cur : Nat) : RState :=
  let m := s.mgt cur
  let newref := (m.ref + (W64 - 1)) % W64
  let s1 := { s with mgt := fun x => if x = cur then { m with ref := newref } else s.mgt x }
  if newref = 0 then advfs_free_block (_block_delete s1 fuel cur) cur
  else s1

/-- Embedding of `advfs_write_block` (ramblock.c), the dedup write engine.
`H` stands for SHA384 on the payload.  `none` models the assertion failure
that a zero result of advfs_alloc_block would trigger in
advfs_write_raw_block. -/
def advfs_write_block (H : Blk → Nat) (fuel : Nat) (s : RState) (inr : Nat) (buf : Blk)
    (pos : Nat) : Option RState :=
  let h := H buf
  let cur := _resolve_block_map s inr pos
  let b := _block_search s fuel h
  if b ≠ 0 then
    if cur ≠ b then
      let s1 := if cur ≠ 0 then unrefSeq s fuel cur else s
      -- reference the found block; the source does not update the block map
      -- on this path
      some { s1 with mgt := fun x =>
        if x = b then { s1.mgt b with ref := ((s1.mgt b).ref + 1) % W64 } else s1.mgt x }
    else some s
  else
    let al := advfs_alloc_block s
    if al.1 = 0 then none
    else
      let s2 := { al.2 with blocks := fun x => if x = al.1 then buf else al.2.blocks x }
      -- the source fills a local mgt record {hash, ref 1, left 0, right 0}
      -- but never writes it back to the management table
      let s3 := match _block_add s2 fuel al.1 with
                | none => s2   -- the caller ignores the insertion failure
                | some sx => sx
      let s4 := if cur ≠ 0 then unrefSeq s3 fuel cur else s3
      some (_update_block_map s4 inr pos al.1)

/-- Embedding of `advfs_unref_block` (ramblock.c). -/
def advfs_unref_block (s : RState) (fuel inr pos : Nat) : RState :=
  let cur := _resolve_block_map s inr pos
  if cur ≠ 0 then unrefSeq s fuel cur else s

/-- The all-zero block. -/
def zeroBlk : Blk := fun _ => 0

/-- The freshly initialised block store, following `advfs_init` (init.c):
refcounts zeroed, data blocks chained into the free list, counters reset.
Fields init.c leaves untouched (the BST root, the hashes and links of the
management records, the inode slot arrays) hold malloc memory, modelled as
zero. -/
def initRState : RState where
  mgtRoot := 0
  freelist := PTR_BLOCK
  nBlockUsed := 0
  mgt := fun _ => ⟨0, 0, 0, 0⟩
  inodes := fun _ => ⟨fun _ => 0⟩
  blocks := fun b =>
    if PTR_BLOCK ≤ b ∧ b < BLOCK_NUM then (fun w => if w = 0 then dataNext b else 0)
    else zeroBlk

end Ram

namespace Mfs

/-- A data block of the main.c layer, viewed as a byte array (indices
0..4095); bytes never initialised by the source are modelled as zero. -/
def Blk := Nat → Nat

/-- Read the 64-bit little-endian word `w` of a block (how main.c reinterprets
block memory as `uint64_t *`). -/
def w64get (blk : Blk) (w : Nat) : Nat :=
  blk (8 * w) + blk (8 * w + 1) * 2 ^ 8 + blk (8 * w + 2) * 2 ^ 16 +
  blk (8 * w + 3) * 2 ^ 24 + blk (8 * w + 4) * 2 ^ 32 + blk (8 * w + 5) * 2 ^ 40 +
  blk (8 * w + 6) * 2 ^ 48 + blk (8 * w + 7) * 2 ^ 56

/-- Store the 64-bit little-endian word `w` of a block. -/
def w64set (blk : Blk) (w v : Nat) : Blk :=
  fun i => if 8 * w ≤ i ∧ i < 8 * w + 8 then v / 2 ^ (8 * (i - 8 * w)) % 2 ^ 8 else blk i

/-- advfs_inode_attr_t. -/
structure Attr where
  typ : Nat
  mode : Nat
  atime : Nat
  mtime : Nat
  ctime : Nat
  size : Nat
  nBlocks : Nat
deriving DecidableEq

/-- advfs_inode_t: attributes, the NUL-terminated name (modelled as its byte
list), and the 16 block-pointer slots. -/
structure Inode where
  attr : Attr
  name : List Nat
  blocks : Nat → Nat

/-- The all-zero attribute record (result of `memset`). -/
def zeroAttr : Attr := ⟨0, 0, 0, 0, 0, 0, 0⟩

/-- The all-zero inode (result of `memset`, and the malloc-zero model of the
fresh table where only `type` is initialised — to the same value 0). -/
def zeroInode : Inode := ⟨zeroAttr, [], fun _ => 0⟩

/-- State of the main.c filesystem: the superblock fields (main.c's
superblock embeds the root inode), the inode table, the block-management
table and the data blocks. -/
structure MState where
  nInodes : Nat
  nInodeUsed : Nat
  nBlocks : Nat
  nBlockUsed : Nat
  freelist : Nat
  root : Inode
  itable : Nat → Inode
  mgt : Nat → MgtRec
  blocks : Nat → Blk

/-- Designator of an `advfs_inode_t *`: either the root inode embedded in
the superblock or an inode-table entry. -/
inductive IRef where
  | rootRef : IRef
  | tblRef : Nat → IRef
deriving DecidableEq

/-- Dereference an inode designator. -/
def getInode (s : MState) : IRef → Inode
  | .rootRef => s.root
  | .tblRef n => s.itable n

/-- Write through an inode designator. -/
def setInode (s : MState) (r : IRef) (v : Inode) : MState :=
  match r with
  | .rootRef => { s with root := v }
  | .tblRef n => { s with itable := fun x => if x = n then v else s.itable x }

/-- The roving `uint64_t *block` pointer of the block-map loops: it aims
either at an inode's slot array or at a data block. -/
inductive Region where
  | ofInode : IRef → Region
  | ofBlock : Nat → Region

/-- Read slot `p` through a region pointer. -/
def regGet (s : MState) : Region → Nat → Nat
  | .ofInode r, p => (getInode s r).blocks p
  | .ofBlock b, p => w64get (s.blocks b) p

/-- Write slot `p` through a region pointer. -/
def regSet (s : MState) (reg : Region) (p v : Nat) : MState :=
  match reg with
  | .ofInode r =>
    setInode s r { getInode s r with blocks := fun x => if x = p then v else (getInode s r).blocks x }
  | .ofBlock b =>
    { s with blocks := fun x => if x = b then w64set (s.blocks b) p v else s.blocks x }

/-- Embedding of `_alloc_block` (main.c): pop the free-list head in place. -/
def _alloc_block (s : MState) : Nat × MState :=
  let b := s.freelist
  if b = 0 then (0, s)
  else (b, { s with freelist := w64get (s.blocks b) 0, nBlockUsed := (s.nBlockUsed + 1) % W64 })

/-- Embedding of `_free_block` (main.c): in place, only the `next` word of
the freed block is written. -/
def _free_block (s : MState) (b : Nat) : MState :=
  { s with
      blocks := fun x => if x = b then w64set (s.blocks b) 0 s.freelist else s.blocks x,
      freelist := b,
      nBlockUsed := (s.nBlockUsed + (W64 - 1)) % W64 }

/-- Bump `attr.n_blocks` of an inode. -/
def incNBlocks (e : Inode) : Inode :=
  { e with attr := { e.attr with nBlocks := (e.attr.nBlocks + 1) % W64 } }

/-- The loop of `_increase_block`: `i` is the loop counter, `rem` the
remaining iterations (`nb − i`), `reg`/`pos` the roving slot pointer.
`false` renders the `-1` returns; as in the source, allocations made before
a failure stay. -/
def _increase_loop (e : IRef) : Nat → Nat → Region → Nat → MState → Bool × MState
  | _, 0, _, _, s => (true, s)
  | i, rem + 1, reg, pos, s =>
    let al := decide ((getInode s e).attr.nBlocks ≤ i)
    let hop : Option (MState × Region × Nat × Nat) :=
      if i = INODE_BLOCKPTR - 1 then
        if al then
          let p := _alloc_block s
          if p.1 = 0 then none
          else some (regSet p.2 reg (INODE_BLOCKPTR - 1) p.1, Region.ofBlock p.1, 0, p.1)
        else
          let b2 := regGet s reg (INODE_BLOCKPTR - 1)
          some (s, Region.ofBlock b2, 0, b2)
      else if pos = WORDS_PER_BLOCK - 1 then
        if al then
          let p := _alloc_block s
          if p.1 = 0 then none
          else some (regSet p.2 reg (WORDS_PER_BLOCK - 1) p.1, Region.ofBlock p.1, 0, p.1)
        else
          let b2 := regGet s reg (WORDS_PER_BLOCK - 1)
          some (s, Region.ofBlock b2, 0, b2)
      else some (s, reg, pos, 0)
    match hop with
    | none => (false, s)
    | some (s1, reg1, pos1, b2) =>
      if al then
        let q := _alloc_block s1
        if q.1 = 0 then (false, if b2 ≠ 0 then _free_block q.2 b2 else q.2)
        else
          let s2 := regSet q.2 reg1 pos1 q.1
          let s3 := setInode s2 e (incNBlocks (getInode s2 e))
          _increase_loop e (i + 1) rem reg1 (pos1 + 1) s3
      else _increase_loop e (i + 1) rem reg1 (pos1 + 1) s1

/-- Embedding of `_increase_block` (main.c): grow the block map of `e` to
`nb` logical blocks, eagerly allocating a data block per new index. -/
def _increase_block (s : MState) (e : IRef) (nb : Nat) : Bool × MState :=
  _increase_loop e 0 nb (Region.ofInode e) 0 s

/-- The loop of `_shrink_block`.  The source computes its `free` flag as
`i >= nb` inside a loop bounded by `i < nb`, so the flag never fires; the
embedding keeps the computation verbatim. -/
def _shrink_loop (nb : Nat) : Nat → Nat → Region → Nat → Nat → MState → Nat × MState
  | _, 0, _, _, fb, s => (fb, s)
  | i, rem + 1, reg, pos, fb, s =>
    let fr := decide (nb ≤ i)
    if i = INODE_BLOCKPTR - 1 then
      let s1 := if fb ≠ 0 then _free_block s fb else s
      let b := regGet s1 reg (INODE_BLOCKPTR - 1)
      let fb1 := if fr then b else fb
      let s2 := if fr then _free_block s1 (regGet s1 (Region.ofBlock b) 0) else s1
      _shrink_loop nb (i + 1) rem (Region.ofBlock b) 1 fb1 s2
    else if pos = WORDS_PER_BLOCK - 1 then
      let s1 := if fb ≠ 0 then _free_block s fb else s
      let b := regGet s1 reg (WORDS_PER_BLOCK - 1)
      let fb1 := if fr then b else fb
      let s2 := if fr then _free_block s1 (regGet s1 (Region.ofBlock b) 0) else s1
      _shrink_loop nb (i + 1) rem (Region.ofBlock b) 1 fb1 s2
    else
      let s1 := if fr then _free_block s (regGet s reg pos) else s
      _shrink_loop nb (i + 1) rem reg (pos + 1) fb s1

/-- Embedding of `_shrink_block` (main.c): run the loop, free the trailing
`fb` if any, set `attr.n_blocks = nb`; always returns success. -/
def _shrink_block (s : MState) (e : IRef) (nb : Nat) : Bool × MState :=
  let r := _shrink_loop nb 0 nb (Region.ofInode e) 0 0 s
  let s1 := if r.1 ≠ 0 then _free_block r.2 r.1 else r.2
  (true, setInode s1 e
    { getInode s1 e with attr := { (getInode s1 e).attr with nBlocks := nb } })

/-- Embedding of `_resize_block` (main.c). -/
def _resize_block (s : MState) (e : IRef) (nb : Nat) : Bool × MState :=
  if nb < (getInode s e).attr.nBlocks then _shrink_block s e nb
  else if (getInode s e).attr.nBlocks < nb then _increase_block s e nb
  else (true, s)

/-- The indirect-chain walk shared by the main.c block-map readers. -/
def chainWalkM (s : MState) (b pos : Nat) : Nat × Nat :=
  if h : WORDS_PER_BLOCK - 1 ≤ pos then
    chainWalkM s (w64get (s.blocks b) (WORDS_PER_BLOCK - 1)) (pos - (WORDS_PER_BLOCK - 1))
  else (b, pos)
termination_by pos
decreasing_by
  simp only [WORDS_PER_BLOCK] at h ⊢
  omega

/-- Resolve the data block holding slot `bidx` of an inode's block map
(the shape repeated by `_get_inode_in_dir`, `_set_inode_in_dir`,
`_read_block` and `_write_block`). -/
def mapSlotBlock (s : MState) (e : IRef) (bidx : Nat) : Nat :=
  if bidx < INODE_BLOCKPTR - 1 then (getInode s e).blocks bidx
  else
    let cw := chainWalkM s ((getInode s e).blocks (INODE_BLOCKPTR - 1))
      (bidx - (INODE_BLOCKPTR - 1))
    w64get (s.blocks cw.1) cw.2

/-- Embedding of `_get_inode_in_dir`: the `nr`-th child inode number of a
directory. -/
def _get_inode_in_dir (s : MState) (dir : IRef) (nr : Nat) : Nat :=
  let bidx := nr / (BLOCK_SIZE / 8)
  let idx := nr % (BLOCK_SIZE / 8)
  w64get (s.blocks (mapSlotBlock s dir bidx)) idx

/-- Embedding of `_set_inode_in_dir`: append a child inode number, growing
the directory's block map. -/
def _set_inode_in_dir (s : MState) (dir : IRef) (inr : Nat) : Bool × MState :=
  if (getInode s dir).attr.typ ≠ ADVFS_DIR then (false, s)
  else
    let bidx := (getInode s dir).attr.size / (BLOCK_SIZE / 8)
    let nb := bidx + 1
    let idx := (getInode s dir).attr.size % (BLOCK_SIZE / 8)
    let r := _resize_block s dir nb
    if r.1 = false then (false, r.2)
    else
      let s1 := r.2
      let b := mapSlotBlock s1 dir bidx
      let s2 := { s1 with blocks := fun x => if x = b then w64set (s1.blocks b) idx inr else s1.blocks x }
      (true, setInode s2 dir
        { getInode s2 dir with attr :=
            { (getInode s2 dir).attr with size := ((getInode s2 dir).attr.size + 1) % W64 } })

/-- Embedding of `_read_block` (main.c): copy out the block at logical
position `pos` of inode `e` (no hole check: slot 0 reads block 0). -/
def _read_block (s : MState) (e : IRef) (pos : Nat) : Blk :=
  s.blocks (mapSlotBlock s e pos)

/-- Embedding of `_write_block` (main.c): store the payload's hash into the
management record indexed by the logical position (verbatim from the
source), then copy the payload into the mapped data block. -/
def _write_block (H : Blk → Nat) (s : MState) (e : IRef) (buf : Blk) (pos : Nat) : MState :=
  let s0 := { s with mgt := fun x => if x = pos then { s.mgt pos with hash := H buf } else s.mgt x }
  let b := mapSlotBlock s0 e pos
  { s0 with blocks := fun x => if x = b then buf else s0.blocks x }

/-- The scan loop of `_find_free_inode`. -/
def _find_free_loop (s : MState) : Nat → Nat → Option Nat
  | _, 0 => none
  | i, rem + 1 =>
    if (s.itable i).attr.typ = ADVFS_UNUSED then some i else _find_free_loop s (i + 1) rem

/-- Embedding of `_find_free_inode`: first unused entry among the first
ADVFS_NUM_ENTRIES inodes. -/
def _find_free_inode (s : MState) : Option Nat := _find_free_loop s 0 NUM_ENTRIES

/-- Byte value of the path separator. -/
def SLASH : Nat := 47

/-- The child-scan loop of `_path2inode_rec` and `_remove_inode_rec`: index
of the first child of `dir` whose inode name equals `name`. -/
def _dir_lookup (s : MState) (dir : IRef) (name : List Nat) : Nat → Nat → Option Nat
  | _, 0 => none
  | i, rem + 1 =>
    if (s.itable (_get_inode_in_dir s dir i)).name = name then some i
    else _dir_lookup s dir name (i + 1) rem

/-- Embedding of `_path2inode_rec` with explicit fuel (the C recursion
consumes at least two path bytes per level).  Returns the resolved inode (or
`none` for the NULL results) together with the state, which the `create`
branch may have changed even on failure. -/
def _path2inode_rec : Nat → MState → IRef → List Nat → Bool → Option IRef × MState
  | 0, s, _, _, _ => (none, s)
  | fuel + 1, s, cur, path, create =>
    if (getInode s cur).attr.typ ≠ ADVFS_DIR then (none, s)
    else if path.head? ≠ some SLASH then (none, s)
    else
      let p1 := path.dropWhile (fun c => c == SLASH)
      let name := p1.takeWhile (fun c => c != SLASH)
      let rest := p1.drop name.length
      if NAME_MAX < name.length then (none, s)
      else if name.length = 0 then (some cur, s)
      else
        match _dir_lookup s cur name 0 (getInode s cur).attr.size with
        | some i =>
          let enr := _get_inode_in_dir s cur i
          if rest = [] then (some (IRef.tblRef enr), s)
          else if (s.itable enr).attr.typ = ADVFS_DIR then
            _path2inode_rec fuel s (IRef.tblRef enr) rest create
          else (none, s)
        | none =>
          if rest = [] ∧ create then
            if MAX_CHILDREN ≤ (getInode s cur).attr.size then (none, s)
            else
              match _find_free_inode s with
              | none => (none, s)
              | some inr =>
                let r := _set_inode_in_dir s cur inr
                if r.1 = false then (none, r.2)
                else
                  let s2 := setInode r.2 (IRef.tblRef inr) { zeroInode with name := name }
                  (some (IRef.tblRef inr), s2)
          else (none, s)

/-- Embedding of `advfs_path2inode`: resolve from the root inode embedded in
the superblock. -/
def advfs_path2inode (s : MState) (path : List Nat) (create : Bool) : Option IRef × MState :=
  _path2inode_rec (path.length + 1) s IRef.rootRef path create

/-- The child-shift loop of `_remove_inode_rec`: copy the inode CONTENTS of
the child at list position i+1 over the inode at list position i (the
source shifts struct contents, not the number list). -/
def _shift_loop (dir : IRef) : Nat → Nat → MState → MState
  | _, 0, s => s
  | i, rem + 1, s =>
    let n0 := _get_inode_in_dir s dir i
    let n1 := _get_inode_in_dir s dir (i + 1)
    _shift_loop dir (i + 1) rem (setInode s (IRef.tblRef n0) (s.itable n1))

/-- Embedding of `_remove_inode_rec` with explicit fuel. -/
def _remove_inode_rec : Nat → MState → IRef → List Nat → Int × MState
  | 0, s, _, _ => (-ENOENT, s)
  | fuel + 1, s, cur, path =>
    if (getInode s cur).attr.typ ≠ ADVFS_DIR then (-ENOENT, s)
    else if path.head? ≠ some SLASH then (-ENOENT, s)
    else
      let p1 := path.dropWhile (fun c => c == SLASH)
      let name := p1.takeWhile (fun c => c != SLASH)
      let rest := p1.drop name.length
      if NAME_MAX < name.length then (-ENOENT, s)
      else if name.length = 0 then (-ENOENT, s)
      else
        match _dir_lookup s cur name 0 (getInode s cur).attr.size with
        | none => (-ENOENT, s)
        | some i =>
          let enr := _get_inode_in_dir s cur i
          if rest ≠ [] then
            if (s.itable enr).attr.typ = ADVFS_DIR then _remove_inode_rec fuel s (IRef.tblRef enr) rest
            else (-ENOENT, s)
          else if (s.itable enr).attr.typ = ADVFS_DIR ∧ 0 < (s.itable enr).attr.size then
            (-ENOTEMPTY, s)
          else
            let s1 := setInode s (IRef.tblRef enr)
              { s.itable enr with attr := { (s.itable enr).attr with typ := ADVFS_UNUSED } }
            let sz1 := ((getInode s1 cur).attr.size + (W64 - 1)) % W64
            let s2 := setInode s1 cur
              { getInode s1 cur with attr := { (getInode s1 cur).attr with size := sz1 } }
            let s3 := _shift_loop cur i (sz1 - i) s2
            let nb := ((getInode s3 cur).attr.size + (BLOCK_SIZE / 8) - 1) / (BLOCK_SIZE / 8)
            let r := _resize_block s3 cur nb
            if r.1 = false then (-EFAULT, r.2) else (0, r.2)

/-- Embedding of `advfs_remove_inode`. -/
def advfs_remove_inode (s : MState) (path : List Nat) : Int × MState :=
  _remove_inode_rec (path.length + 1) s IRef.rootRef path

/-- The copy loop of `advfs_read`.  Each pass stages the block at
`offset / BLOCK_SIZE` and copies `min (BLOCK_SIZE − offset % BLOCK_SIZE)
remain` bytes — taken from the START of the staged block (`buf[k] =
block[j]`, with `j` counting from 0, verbatim from the source). -/
def _read_loop (s : MState) (e : IRef) : Nat → Nat → Nat → List Nat
  | 0, _, _ => []
  | fuel + 1, offset, remain =>
    if remain = 0 then []
    else
      let blk := _read_block s e (offset / BLOCK_SIZE)
      let j := min (BLOCK_SIZE - offset % BLOCK_SIZE) remain
      ((List.range j).map fun t => blk t) ++ _read_loop s e fuel (offset + j) (remain - j)

/-- Embedding of `advfs_read` (main.c): returns the count and the bytes
delivered.  There is no clamp at `attr.size` in the source. -/
def advfs_read (s : MState) (path : List Nat) (size offset flags : Nat) : Int × List Nat :=
  match (advfs_path2inode s path false).1 with
  | none => (-ENOENT, [])
  | some r =>
    if (getInode s r).attr.typ ≠ ADVFS_REGULAR_FILE then (-EISDIR, [])
    else if flags % 4 ≠ O_RDONLY ∧ flags % 4 ≠ O_RDWR then (-EACCES, [])
    else
      let out := _read_loop s r (size + 1) offset size
      (Int.ofNat out.length, out)

/-- The copy loop of `advfs_write`.  Only a non-block-aligned `offset` is
handled by the loop body; on a block-aligned offset the source advances by a
loop variable that is stale (uninitialised on the first pass), which the
embedding renders as `none` (undefined).  The source also restarts reading
the user buffer at index 0 on every pass. -/
def _write_loop (H : Blk → Nat) (e : IRef) : Nat → Nat → Nat → List Nat → MState → Option MState
  | 0, _, _, _, s => some s
  | fuel + 1, offset, remain, buf, s =>
    if remain = 0 then some s
    else if offset % BLOCK_SIZE ≠ 0 then
      let pos := offset / BLOCK_SIZE
      let blk := _read_block s e pos
      let j := min (BLOCK_SIZE - offset % BLOCK_SIZE) remain
      let blk1 : Blk := fun t =>
        if offset % BLOCK_SIZE ≤ t ∧ t < offset % BLOCK_SIZE + j then buf.getD (t - offset % BLOCK_SIZE) 0
        else blk t
      _write_loop H e fuel (offset + j) (remain - j) buf (_write_block H s e blk1 pos)
    else none

/-- Embedding of `advfs_write` (main.c).  `none` renders the undefined
stale-variable path of the copy loop. -/
def advfs_write (H : Blk → Nat) (s : MState) (path : List Nat) (buf : List Nat)
    (size offset flags : Nat) : Option (Int × MState) :=
  let pr := advfs_path2inode s path false
  match pr.1 with
  | none => some (-ENOENT, pr.2)
  | some r =>
    if (getInode pr.2 r).attr.typ ≠ ADVFS_REGULAR_FILE then some (-EISDIR, pr.2)
    else if flags % 4 ≠ O_WRONLY ∧ flags % 4 ≠ O_RDWR then some (-EACCES, pr.2)
    else if size = 0 then some (0, pr.2)
    else
      let nsize := offset + size
      let nb := (nsize + BLOCK_SIZE - 1) / BLOCK_SIZE
      let rz := _resize_block pr.2 r nb
      if rz.1 = false then some (-EFAULT, rz.2)
      else
        let s1 := rz.2
        let s2 :=
          if (getInode s1 r).attr.size < nsize then
            setInode s1 r { getInode s1 r with attr := { (getInode s1 r).attr with size := nsize } }
          else s1
        match _write_loop H r (size + 1) offset size buf s2 with
        | none => none
        | some s3 => some (Int.ofNat size, s3)

/-- The zero-fill loop of `advfs_truncate`: extend `attr.size` towards the
target, zeroing the staged block bytes, then write the block back. -/
def _trunc_loop (H : Blk → Nat) (e : IRef) (size : Nat) : Nat → MState → MState
  | 0, s => s
  | fuel + 1, s =>
    if (getInode s e).attr.size < size then
      let pos := (getInode s e).attr.size / BLOCK_SIZE
      let blk := _read_block s e pos
      let start := (getInode s e).attr.size % BLOCK_SIZE
      let cnt := min (BLOCK_SIZE - start) (size - (getInode s e).attr.size)
      let blk1 : Blk := fun t => if start ≤ t ∧ t < start + cnt then 0 else blk t
      let s1 := setInode s e
        { getInode s e with attr := { (getInode s e).attr with size := (getInode s e).attr.size + cnt } }
      _trunc_loop H e size fuel (_write_block H s1 e blk1 pos)
    else s

/-- Embedding of `advfs_truncate` (main.c). -/
def advfs_truncate (H : Blk → Nat) (s : MState) (path : List Nat) (size : Nat) : Int × MState :=
  let pr := advfs_path2inode s path false
  match pr.1 with
  | none => (-ENOENT, pr.2)
  | some r =>
    if (getInode pr.2 r).attr.typ ≠ ADVFS_REGULAR_FILE then (-EISDIR, pr.2)
    else
      let nb := (size + BLOCK_SIZE - 1) / BLOCK_SIZE
      let rz := _resize_block pr.2 r nb
      if rz.1 = false then (-EFAULT, rz.2)
      else
        let s1 := _trunc_loop H r size (size + 1) rz.2
        (0, setInode s1 r { getInode s1 r with attr := { (getInode s1 r).attr with size := size } })

/-- The statvfs fields advfs_statfs fills. -/
structure StatVfs where
  bsize : Nat
  frsize : Nat
  blocks : Nat
  bfree : Nat
  bavail : Nat
  files : Nat
  ffree : Nat
  favail : Nat
  namemax : Nat
deriving DecidableEq

/-- Embedding of `advfs_statfs` (main.c). -/
def advfs_statfs (s : MState) : StatVfs :=
  { bsize := BLOCK_SIZE
    frsize := BLOCK_SIZE
    blocks := s.nBlocks
    bfree := s.nBlocks - s.nBlockUsed
    bavail := s.nBlocks - s.nBlockUsed
    files := s.nInodes
    ffree := s.nInodes - s.nInodeUsed
    favail := s.nInodes - s.nInodeUsed
    namemax := NAME_MAX }

/-- Byte value of the dot. -/
def DOT : Nat := 46

/-- The entry loop of `advfs_readdir`: the source reads every child number
from direct slot 0 only (`b = e->blocks[0]`). -/
def _readdir_loop (s : MState) (e : IRef) : Nat → Nat → List (List Nat)
  | _, 0 => []
  | i, rem + 1 =>
    (s.itable (w64get (s.blocks ((getInode s e).blocks 0)) i)).name ::
      _readdir_loop s e (i + 1) rem

/-- Embedding of `advfs_readdir` (main.c): "." and ".." followed by the
child names; `none` renders the -ENOENT results. -/
def advfs_readdir (s : MState) (path : List Nat) : Option (List (List Nat)) :=
  match (advfs_path2inode s path false).1 with
  | none => none
  | some r =>
    if (getInode s r).attr.typ ≠ ADVFS_DIR then none
    else some ([DOT] :: [DOT, DOT] :: _readdir_loop s r 0 (getInode s r).attr.size)

/-- Embedding of `advfs_create` (main.c); `tv` is the gettimeofday result. -/
def advfs_create (s : MState) (path : List Nat) (mode tv : Nat) : Int × MState :=
  let pr0 := advfs_path2inode s path false
  match pr0.1 with
  | some _ => (-EEXIST, pr0.2)
  | none =>
    let pr := advfs_path2inode pr0.2 path true
    match pr.1 with
    | none => (-EACCES, pr.2)
    | some r =>
      (0, setInode pr.2 r
        { getInode pr.2 r with attr :=
            { (getInode pr.2 r).attr with
                typ := ADVFS_REGULAR_FILE, mode := mode, atime := tv, mtime := tv, ctime := tv } })

/-- Embedding of `advfs_mkdir` (main.c). -/
def advfs_mkdir (s : MState) (path : List Nat) (mode tv : Nat) : Int × MState :=
  let pr0 := advfs_path2inode s path false
  match pr0.1 with
  | some _ => (-EEXIST, pr0.2)
  | none =>
    let pr := advfs_path2inode pr0.2 path true
    match pr.1 with
    | none => (-EACCES, pr.2)
    | some r =>
      (0, setInode pr.2 r
        { getInode pr.2 r with attr :=
            { (getInode pr.2 r).attr with
                typ := ADVFS_DIR, mode := mode, atime := tv, mtime := tv, ctime := tv } })

/-- Embedding of `advfs_rmdir` (main.c). -/
def advfs_rmdir (s : MState) (path : List Nat) : Int × MState :=
  match (advfs_path2inode s path false).1 with
  | none => (-ENOENT, s)
  | some r =>
    if (getInode s r).attr.typ ≠ ADVFS_DIR then (-ENOTDIR, s)
    else advfs_remove_inode s path

/-- Embedding of `advfs_unlink` (main.c): a resolved non-regular inode
(a directory included) yields -ENOENT before any removal is attempted. -/
def advfs_unlink (s : MState) (path : List Nat) : Int × MState :=
  match (advfs_path2inode s path false).1 with
  | none => (-ENOENT, s)
  | some r =>
    if (getInode s r).attr.typ ≠ ADVFS_REGULAR_FILE then (-ENOENT, s)
    else advfs_remove_inode s path

/-- The root inode as `main` initialises it (mode S_IFDIR | 0777 = 16895). -/
def rootInode (tv : Nat) : Inode :=
  { attr := { typ := ADVFS_DIR, mode := 16895, atime := tv, mtime := tv, ctime := tv,
              size := 0, nBlocks := 0 },
    name := [], blocks := fun _ => 0 }

/-- The freshly initialised main.c filesystem, following the image setup in
`main` (malloc memory modelled as zero; `tv` the gettimeofday result). -/
def initM (tv : Nat) : MState where
  nInodes := INODE_NUM
  nInodeUsed := 0
  nBlocks := N_DATA_BLOCKS
  nBlockUsed := 0
  freelist := PTR_BLOCK
  root := rootInode tv
  itable := fun _ => zeroInode
  mgt := fun _ => ⟨0, 0, 0, 0⟩
  blocks := fun b =>
    if PTR_BLOCK ≤ b ∧ b < BLOCK_NUM then (fun i => if i < 8 then dataNext b / 2 ^ (8 * i) % 2 ^ 8 else 0)
    else fun _ => 0

end Mfs

namespace Ram

/-- Concrete payload standing for the 4096-byte 0x5A buffer X of scenario S3
(every word 0x5A…, abbreviated to 90). -/
def xBlk : Blk := fun _ => 90

/-- Concrete payload whose stand-in hash is 5. -/
def yBlk : Blk := fun _ => 5

/-- Concrete stand-in for SHA384 at the trace inputs: the engine consults
the digest only through equality / memcmp order, and the traces need only
that the payload's digest differs from the zero digest left in the
uninitialised management records, which holds for the real SHA384 of X. -/
def hashW0 : Blk → Nat := fun blk => blk 0

/-- C1 trace: on the fresh image, write identical payloads to
(inode 1, index 0) and (inode 2, index 0) through the dedup engine. -/
def c1run : Option RState :=
  (advfs_write_block hashW0 64 initRState 1 xBlk 0).bind
    (fun s => advfs_write_block hashW0 64 s 2 xBlk 0)

/-- C2 state: the hash BST holds block 338 (hash 5, ref 1) with left child
337 (hash 3, ref 1); inode 1 maps logical index 0 to block 337; two blocks
in use. -/
def c2state : RState where
  mgtRoot := 338
  freelist := 0
  nBlockUsed := 2
  mgt := fun b =>
    if b = 337 then ⟨3, 1, 0, 0⟩ else if b = 338 then ⟨5, 1, 337, 0⟩ else ⟨0, 0, 0, 0⟩
  inodes := fun n => if n = 1 then ⟨fun p => if p = 0 then 337 else 0⟩ else ⟨fun _ => 0⟩
  blocks := fun _ => zeroBlk

/-- C2 trace: overwrite (inode 1, index 0) with the payload whose hash the
BST already holds at block 338. -/
def c2run : Option RState := advfs_write_block hashW0 64 c2state 1 yBlk 0

/-- C4 state: the BST root 337 (hash 5) has only a right child 338 (hash 7),
both with refcount 1. -/
def c4state : RState where
  mgtRoot := 337
  freelist := 0
  nBlockUsed := 2
  mgt := fun b =>
    if b = 337 then ⟨5, 1, 0, 338⟩ else if b = 338 then ⟨7, 1, 0, 0⟩ else ⟨0, 0, 0, 0⟩
  inodes := fun _ => ⟨fun _ => 0⟩
  blocks := fun _ => zeroBlk

/-- C4 trace: delete the root node 337, which has only a right child. -/
def c4run : RState := _block_delete c4state 64 337

end Ram

namespace Mfs

/-- The state after `create("/a", 0644)` on the fresh image (path "/a" is
the byte list [47, 97]; the timestamp is 7). -/
def createdA : MState := (advfs_create (initM 0) [47, 97] 420 7).2

/-- C3 trace: write the single byte 65 at offset 1 of "/a" with O_WRONLY. -/
def c3w : Option (Int × MState) := advfs_write (fun _ => 0) createdA [47, 97] [65] 1 1 1

/-- Number of inode-table entries whose type is not Unused. -/
def usedCount (s : MState) : Nat :=
  ((List.range INODE_NUM).filter (fun i => (s.itable i).attr.typ != ADVFS_UNUSED)).length

/-- C5 file: a regular file whose block map holds data blocks 400 and 401. -/
def c5file : Inode :=
  { attr := { typ := ADVFS_REGULAR_FILE, mode := 420, atime := 0, mtime := 0, ctime := 0,
              size := 8192, nBlocks := 2 },
    name := [97], blocks := fun p => if p = 0 then 400 else if p = 1 then 401 else 0 }

/-- C5 state: the file of `c5file` at table entry 0, two blocks in use. -/
def c5state : MState where
  nInodes := INODE_NUM
  nInodeUsed := 1
  nBlocks := N_DATA_BLOCKS
  nBlockUsed := 2
  freelist := 0
  root := rootInode 0
  itable := fun n => if n = 0 then c5file else zeroInode
  mgt := fun _ => ⟨0, 0, 0, 0⟩
  blocks := fun _ => fun _ => 0

/-- C5 trace: shrink the file's block map from 2 logical blocks to 1. -/
def c5run : MState := (_resize_block c5state (IRef.tblRef 0) 1).2

/-- Root directory with one child inode (table entry 0) listed in data
block 400 (block 400 is all zero, so its first child word is inode 0). -/
def oneChildRoot : Inode :=
  { attr := { typ := ADVFS_DIR, mode := 16895, atime := 0, mtime := 0, ctime := 0,
              size := 1, nBlocks := 1 },
    name := [], blocks := fun p => if p = 0 then 400 else 0 }

/-- An empty regular file named "a". -/
def c6file : Inode :=
  { attr := { typ := ADVFS_REGULAR_FILE, mode := 420, atime := 0, mtime := 0, ctime := 0,
              size := 0, nBlocks := 0 },
    name := [97], blocks := fun _ => 0 }

/-- C6 state: free list empty (image full), one empty regular file "/a". -/
def c6state : MState where
  nInodes := INODE_NUM
  nInodeUsed := 1
  nBlocks := N_DATA_BLOCKS
  nBlockUsed := N_DATA_BLOCKS
  freelist := 0
  root := oneChildRoot
  itable := fun n => if n = 0 then c6file else zeroInode
  mgt := fun _ => ⟨0, 0, 0, 0⟩
  blocks := fun _ => fun _ => 0

/-- An empty directory named "d". -/
def c10dir : Inode :=
  { attr := { typ := ADVFS_DIR, mode := 16895, atime := 0, mtime := 0, ctime := 0,
              size := 0, nBlocks := 0 },
    name := [100], blocks := fun _ => 0 }

/-- C10 state: one empty subdirectory "/d" under the root. -/
def c10state : MState where
  nInodes := INODE_NUM
  nInodeUsed := 2
  nBlocks := N_DATA_BLOCKS
  nBlockUsed := 1
  freelist := 0
  root := oneChildRoot
  itable := fun n => if n = 0 then c10dir else zeroInode
  mgt := fun _ => ⟨0, 0, 0, 0⟩
  blocks := fun _ => fun _ => 0

end Mfs

/-- C1: the claim asserts that after two identical block-sized writes to
distinct (inode, index) pairs on a fresh image exactly one physical block
holds the content with refcount 2 and n_block_used = 1.  On the code the
first write never persists the management record of the new block (the
local record built in advfs_write_block is dead), so the second write misses
the dedup index and allocates a second block: n_block_used ends at 2, both
payload copies exist (blocks 337 and 338) and both refcounts are still 0. -/
theorem c1_dedup_broken :
    Ram.c1run.map (fun s => (s.nBlockUsed, (s.mgt 337).ref, (s.mgt 338).ref)) =
      some (2, 0, 0) ∧
    Ram.c1run.map (fun s => s.blocks 337) = some Ram.xBlk ∧
    Ram.c1run.map (fun s => s.blocks 338) = some Ram.xBlk :=
  ⟨by decide, by rfl, by rfl⟩

/-- C2: the claim asserts that on a dedup hit (found ≠ 0, cur ≠ found) the
old block is unreferenced, the found block's refcount is incremented, AND
the inode's block-map slot is updated to point to the found block.  The code
performs the first two steps but never calls _update_block_map on this path:
after the trace the refcount of the found block 338 is 2 and the old block
337 has been freed (it heads the free list), yet the inode's slot still
resolves to 337. -/
theorem c2_map_not_updated :
    Ram.c2run.map (fun s =>
      (Ram._resolve_block_map s 1 0, (s.mgt 338).ref, s.freelist, s.nBlockUsed)) =
      some (337, 2, 337, 1) :=
  by decide

/-- C4: the claim asserts that deleting a BST node that has only a right
child promotes that right child, leaving every other node reachable.  The
source tests `0 != mgt->left` twice (the second test was meant for the right
child), so such a node falls into the no-children case: deleting root 337
sets the root slot to 0 and its right child 338 (refcount 1) becomes
unreachable — searching for its hash now fails. -/
theorem c4_right_child_dropped :
    Ram.c4run.mgtRoot = 0 ∧ Ram._block_search Ram.c4run 64 7 = 0 ∧
      (Ram.c4run.mgt 338).ref = 1 :=
  by decide

/-- Helper: path resolution without the create flag leaves the state
unchanged (the only mutation sites of `_path2inode_rec` sit in the create
branch). -/
theorem path2inode_ro (fuel : Nat) :
    ∀ (s : Mfs.MState) (cur : Mfs.IRef) (path : List Nat),
      (Mfs._path2inode_rec fuel s cur path false).2 = s := by
  induction fuel with
  | zero => intro s cur path; rfl
  | succ n ih =>
    intro s cur path
    simp only [Mfs._path2inode_rec]
    repeat' split
    all_goals first | rfl | apply ih | simp_all

/-- Helper: `advfs_path2inode` with create = 0 leaves the state unchanged. -/
theorem advfs_path2inode_ro (s : Mfs.MState) (path : List Nat) :
    (Mfs.advfs_path2inode s path false).2 = s :=
  path2inode_ro _ s _ path

/-- C3: the claim asserts the byte-range write-then-read round trip.  On the
code it fails: writing byte 65 at offset 1 of "/a" succeeds (the byte lands
at index 1 of the file's data block), but reading one byte back at offset 1
returns 83 — `advfs_read` copies `block[j]` with `j` counting from 0, i.e.
from the start of the block, where the stale free-list pointer byte of the
freshly allocated block lives. -/
theorem c3_roundtrip_broken :
    Mfs.c3w.map (fun q => q.1) = some 1 ∧
    Mfs.c3w.map (fun q => (Mfs.advfs_read q.2 [47, 97] 1 1 0).2) = some [83] ∧
    Mfs.c3w.map (fun q => Mfs._read_block q.2 (Mfs.IRef.tblRef 0) 0 1) = some 65 ∧
    ([83] : List Nat) ≠ [65] := by
  refine ⟨by decide, by decide, by decide, by decide⟩

/-- C5: the claim asserts that shrinking an inode's block map frees the data
blocks of the removed indices.  The code's loop computes its `free` flag as
`i >= nb` inside `for (i = 0; i < nb; i++)`, so nothing is ever freed:
shrinking the two-block file to one block leaves n_block_used at 2, the free
list untouched, and the removed index's block 401 still in the slot — only
`attr.n_blocks` is set to 1. -/
theorem c5_shrink_frees_nothing :
    Mfs.c5run.nBlockUsed = 2 ∧ Mfs.c5run.freelist = 0 ∧
    (Mfs.c5run.itable 0).attr.nBlocks = 1 ∧ (Mfs.c5run.itable 0).blocks 1 = 401 := by
  decide

/-- Helper: growing a block map from 0 blocks with an empty free list fails
immediately and (on this path) without mutating the state. -/
theorem increase_fail_empty (s : Mfs.MState) (e : Mfs.IRef) (nb : Nat) (h : 1 ≤ nb)
    (h5 : s.freelist = 0) (h6 : (Mfs.getInode s e).attr.nBlocks = 0) :
    Mfs._increase_block s e nb = (false, s) := by
  obtain ⟨k, rfl⟩ : ∃ k, nb = k + 1 := ⟨nb - 1, by omega⟩
  simp [Mfs._increase_block, Mfs._increase_loop, Mfs._alloc_block, h5, h6,
    INODE_BLOCKPTR, WORDS_PER_BLOCK]

/-- C6 counterexample: the claim asserts EDQUOT from write and EFBIG from
truncate on data-block allocation failure; on the concrete full image both
return -EFAULT, which differs from both. -/
theorem c6_errno_counterexample :
    (Mfs.advfs_write (fun _ => 0) Mfs.c6state [47, 97] [0] 1 0 1).map (fun q => q.1) =
      some (-EFAULT) ∧
    (Mfs.advfs_truncate (fun _ => 0) Mfs.c6state [47, 97] 1).1 = -EFAULT ∧
    (-EFAULT : Int) ≠ -EDQUOT ∧ (-EFAULT : Int) ≠ -EFBIG := by
  refine ⟨by decide, by decide, by decide, by decide⟩

/-- C6 amended: when a data-block allocation fails because the free list is
empty, both the write operation and the truncate operation return -EFAULT
(the adapters cannot distinguish the resize failure cause; EDQUOT and EFBIG
appear nowhere in the source). -/
theorem c6_alloc_failure_efault (H : Mfs.Blk → Nat) (s : Mfs.MState)
    (p buf : List Nat) (size offset flags : Nat) (r : Mfs.IRef)
    (h1 : (Mfs.advfs_path2inode s p false).1 = some r)
    (h2 : (Mfs.getInode s r).attr.typ = ADVFS_REGULAR_FILE)
    (h3 : flags % 4 = O_WRONLY ∨ flags % 4 = O_RDWR)
    (h4 : 1 ≤ size)
    (h5 : s.freelist = 0)
    (h6 : (Mfs.getInode s r).attr.nBlocks = 0) :
    Mfs.advfs_write H s p buf size offset flags = some (-EFAULT, s) ∧
    Mfs.advfs_truncate H s p size = (-EFAULT, s) := by
  have hs : Mfs.advfs_path2inode s p false = (some r, s) :=
    Prod.ext h1 (advfs_path2inode_ro s p)
  have hb1 : 0 < (offset + size + BLOCK_SIZE - 1) / BLOCK_SIZE := by
    simp only [BLOCK_SIZE]; omega
  have hb2 : 0 < (size + BLOCK_SIZE - 1) / BLOCK_SIZE := by
    simp only [BLOCK_SIZE]; omega
  have hr1 : Mfs._resize_block s r ((offset + size + BLOCK_SIZE - 1) / BLOCK_SIZE) = (false, s) := by
    rw [Mfs._resize_block, h6]
    simp only [Nat.not_lt_zero, if_false]
    rw [if_pos hb1]
    exact increase_fail_empty s r _ hb1 h5 h6
  have hr2 : Mfs._resize_block s r ((size + BLOCK_SIZE - 1) / BLOCK_SIZE) = (false, s) := by
    rw [Mfs._resize_block, h6]
    simp only [Nat.not_lt_zero, if_false]
    rw [if_pos hb2]
    exact increase_fail_empty s r _ hb2 h5 h6
  constructor
  · rcases h3 with h3 | h3 <;>
      · simp [Mfs.advfs_write, hs, h2, h3, O_WRONLY, O_RDWR, ADVFS_REGULAR_FILE, hr1]
        omega
  · simp [Mfs.advfs_truncate, hs, h2, ADVFS_REGULAR_FILE, hr2]

/-- C6 witness: the amended statement at the concrete full image. -/
theorem c6_alloc_failure_efault_witness :
    Mfs.advfs_write (fun _ => 0) Mfs.c6state [47, 97] [0] 1 0 1 = some (-EFAULT, Mfs.c6state) ∧
    Mfs.advfs_truncate (fun _ => 0) Mfs.c6state [47, 97] 1 = (-EFAULT, Mfs.c6state) :=
  c6_alloc_failure_efault (fun _ => 0) Mfs.c6state [47, 97] [0] 1 0 1 (Mfs.IRef.tblRef 0)
    (by decide) (by decide) (Or.inl (by decide)) (by decide) (by decide) (by decide)

/-- C7: the claim asserts that n_inode_used tracks the number of inodes with
type ≠ Unused (creation increments it).  The code never updates
n_inode_used: after `create("/a")` on the fresh image, table entry 0 is a
regular file (one used inode) while n_inode_used is still 0. -/
theorem c7_inode_counter_not_updated :
    Mfs.usedCount Mfs.createdA = 1 ∧ Mfs.createdA.nInodeUsed = 0 ∧
    (Mfs.createdA.itable 0).attr.typ = ADVFS_REGULAR_FILE := by
  refine ⟨by decide, by decide, by decide⟩

/-- C8 counterexample: the claim asserts statfs reports f_blocks = 10199 on
the fresh image; the initialiser computes n_blocks = 10240 − (1 + 16 + 320)
= 9903, so statfs reports 9903. -/
theorem c8_statfs_counterexample :
    (Mfs.advfs_statfs (Mfs.initM 0)).blocks ≠ 10199 := by decide

/-- C8 amended: on the fresh image statfs reports f_blocks = 9903,
f_bfree = 9903 (10240 blocks minus 1 superblock, 16 inode blocks and 320
block-management blocks), f_files = 128 and f_ffree = 128, and readdir of
"/" returns exactly "." and "..". -/
theorem c8_fresh_image_stats :
    (Mfs.advfs_statfs (Mfs.initM 0)).blocks = 9903 ∧
    (Mfs.advfs_statfs (Mfs.initM 0)).bfree = 9903 ∧
    (Mfs.advfs_statfs (Mfs.initM 0)).files = 128 ∧
    (Mfs.advfs_statfs (Mfs.initM 0)).ffree = 128 ∧
    Mfs.advfs_readdir (Mfs.initM 0) [Mfs.SLASH] = some [[Mfs.DOT], [Mfs.DOT, Mfs.DOT]] := by
  refine ⟨by decide, by decide, by decide, by decide, by decide⟩

/-- C9: a write of size 0 to a resolved regular file with write access
returns 0 and leaves the state (hence the file's size, block map, the
superblock counters, the free list and the management table) unchanged: the
size check exits before the resize and before any mutation. -/
theorem c9_zero_write_noop (H : Mfs.Blk → Nat) (s : Mfs.MState) (p buf : List Nat)
    (offset flags : Nat) (r : Mfs.IRef)
    (h1 : (Mfs.advfs_path2inode s p false).1 = some r)
    (h2 : (Mfs.getInode s r).attr.typ = ADVFS_REGULAR_FILE)
    (h3 : flags % 4 = O_WRONLY ∨ flags % 4 = O_RDWR) :
    Mfs.advfs_write H s p buf 0 offset flags = some (0, s) := by
  have hs : Mfs.advfs_path2inode s p false = (some r, s) :=
    Prod.ext h1 (advfs_path2inode_ro s p)
  rcases h3 with h3 | h3 <;>
    simp [Mfs.advfs_write, hs, h2, h3, O_WRONLY, O_RDWR, ADVFS_REGULAR_FILE]

/-- C9 witness: the zero-size write at a concrete state and file. -/
theorem c9_zero_write_noop_witness :
    Mfs.advfs_write (fun _ => 0) Mfs.c6state [47, 97] [] 0 5 1 = some (0, Mfs.c6state) :=
  c9_zero_write_noop (fun _ => 0) Mfs.c6state [47, 97] [] 5 1 (Mfs.IRef.tblRef 0)
    (by decide) (by decide) (Or.inl (by decide))

/-- C10: unlink on a path resolving to a directory returns -ENOENT (the type
test `type != ADVFS_REGULAR_FILE` fires before advfs_remove_inode is
reached) and the state is unchanged. -/
theorem c10_unlink_dir_enoent (s : Mfs.MState) (p : List Nat) (r : Mfs.IRef)
    (h1 : (Mfs.advfs_path2inode s p false).1 = some r)
    (h2 : (Mfs.getInode s r).attr.typ = ADVFS_DIR) :
    Mfs.advfs_unlink s p = (-ENOENT, s) := by
  simp [Mfs.advfs_unlink, h1, h2, ADVFS_DIR, ADVFS_REGULAR_FILE]

/-- C10 witness: unlink of the concrete empty directory "/d". -/
theorem c10_unlink_dir_enoent_witness :
    Mfs.advfs_unlink Mfs.c10state [47, 100] = (-ENOENT, Mfs.c10state) :=
  c10_unlink_dir_enoent Mfs.c10state [47, 100] (Mfs.IRef.tblRef 0) (by decide) (by decide)

end Advfs
